import Mathlib

/-!
Verification development for the Luos message allocator
(src/Robus/src/msg_alloc.c).

Modelling conventions:
- Pointers are natural-number addresses.  The byte array msg_buffer
  occupies the address range [base, base + bufferSize).  The C null
  pointer is modelled by Option.none where the code compares it against
  buffer addresses (a static array never sits at address 0, so a null
  pointer can never lie inside the buffer).
- Each task stack keeps its valid entries 0..stack_id-1 and slides left
  on removal, zeroing or abandoning the freed slot; it is modelled by
  the list of its valid entries, oldest first.  Removal at index i is
  List.eraseIdx i, a push is an append, the stack_id counter is the
  list length.
- Machine bytes are Nat values held in a function from addresses to
  values; memcpy is a pointwise overwrite reading the pre-state.
- mem_stat is merged into the state (msg_drop_number and the two
  watermark percentages; the C fields are msg_stack_ratio and
  luos_stack_ratio, renamed msg_stack_pct and luos_stack_pct here).
-/

/-- Compile-time configuration (config.h is not among the sources:
MSG_BUFFER_SIZE, MAX_MSG_NB, sizeof(header_t) and MAX_DATA_MSG_SIZE are
compile-time constants of the build, kept abstract here) together with
the load address of msg_buffer[0]. -/
structure AllocCfg where
  bufferSize : Nat
  maxMsgNb : Nat
  headerSize : Nat
  maxData : Nat
  base : Nat
deriving DecidableEq

/-- Return type of fallible allocator calls (error_return_t). -/
inductive error_return_t
  | SUCCEED
  | FAILED
deriving DecidableEq

/-- Global state of msg_alloc.c: the reception cursor, the deferred
header-copy task, the three task stacks, the consumer pointer used_msg,
the buffer contents and the memory statistics. -/
structure AllocState where
  current_msg : Nat
  data_ptr : Nat
  data_end_estimation : Nat
  copy_task_pointer : Option Nat
  msg_tasks : List Nat
  used_msg : Option Nat
  luos_tasks : List (Nat × Nat)
  tx_tasks : List (Nat × Nat)
  buf : Nat → Nat
  msg_drop_number : Nat
  msg_stack_pct : Nat
  luos_stack_pct : Nat

/-- Saturating increment of the drop counter: the code guards every
mem_stat->msg_drop_number++ by msg_drop_number < 0xFF. -/
def dropInc (n : Nat) : Nat := if n < 255 then n + 1 else n

/-- MsgAlloc_DoWeHaveSpace: FAILED when the requested end address lies
past the last buffer byte &msg_buffer[MSG_BUFFER_SIZE - 1]. -/
def MsgAlloc_DoWeHaveSpace (cfg : AllocCfg) (tgt : Nat) : error_return_t :=
  if cfg.base + cfg.bufferSize - 1 < tgt then .FAILED else .SUCCEED

/-- Loop of MsgAlloc_ClearMsgSpace clearing oldest luos_tasks entries
while luos_tasks[0].msg_pt lies in [f, t] and the stack is non-empty,
counting one (saturating) drop per pop. -/
def sweepLuos (f t : Nat) : List (Nat × Nat) → Nat → List (Nat × Nat) × Nat
  | [], d => ([], d)
  | e :: rest, d =>
    if f ≤ e.1 ∧ e.1 ≤ t then sweepLuos f t rest (dropInc d)
    else (e :: rest, d)

/-- Loop of MsgAlloc_ClearMsgSpace clearing oldest msg_tasks entries
while msg_tasks[0] lies in [f, t] and the stack is non-empty, counting
one (saturating) drop per pop. -/
def sweepMsg (f t : Nat) : List Nat → Nat → List Nat × Nat
  | [], d => ([], d)
  | m :: rest, d =>
    if f ≤ m ∧ m ≤ t then sweepMsg f t rest (dropInc d)
    else (m :: rest, d)

/-- MsgAlloc_ClearMsgSpace(from, to): fail (changing nothing) when to
lies past the last buffer byte; otherwise invalidate used_msg when it
lies in [from, to], then pop oldest luos_tasks and msg_tasks entries
lying in [from, to], counting drops. -/
def MsgAlloc_ClearMsgSpace (cfg : AllocCfg) (f t : Nat) (s : AllocState) :
    error_return_t × AllocState :=
  if cfg.base + cfg.bufferSize - 1 < t then (.FAILED, s)
  else
    let s1 :=
      match s.used_msg with
      | some u =>
        if f ≤ u ∧ u ≤ t then
          { s with used_msg := none, msg_drop_number := dropInc s.msg_drop_number }
        else s
      | none => s
    let l2 := sweepLuos f t s1.luos_tasks s1.msg_drop_number
    let s2 := { s1 with luos_tasks := l2.1, msg_drop_number := l2.2 }
    let m3 := sweepMsg f t s2.msg_tasks s2.msg_drop_number
    (.SUCCEED, { s2 with msg_tasks := m3.1, msg_drop_number := m3.2 })

/-- MsgAlloc_Init: reset the reception cursor, both reception task
stacks, the header-copy task and used_msg.  The tx task stack is not
touched.  (mem_stat is repointed, not reset, so the statistics fields
are unchanged.) -/
def MsgAlloc_Init (cfg : AllocCfg) (s : AllocState) : AllocState :=
  { s with
    current_msg := cfg.base
    data_ptr := cfg.base
    data_end_estimation := cfg.base + cfg.headerSize + 2
    msg_tasks := []
    luos_tasks := []
    copy_task_pointer := none
    used_msg := none }

/-- MsgAlloc_loop: raise the msg task watermark, then perform the
pending header copy (sizeof(header_t) bytes from copy_task_pointer to
msg_buffer[0]) and clear the copy task. -/
def MsgAlloc_loop (cfg : AllocCfg) (s : AllocState) : AllocState :=
  let stat := s.msg_tasks.length * 100 / cfg.maxMsgNb
  let s1 := if s.msg_stack_pct < stat then { s with msg_stack_pct := stat } else s
  match s1.copy_task_pointer with
  | some p =>
    { s1 with
      buf := fun a =>
        if cfg.base ≤ a ∧ a < cfg.base + cfg.headerSize then s1.buf (p + (a - cfg.base))
        else s1.buf a
      copy_task_pointer := none }
  | none => s1

/-- MsgAlloc_InvalidMsg: clear [current_msg, data_ptr], reset data_ptr
to current_msg and the end estimation to current_msg + sizeof(header_t)
+ 2; clear the copy task when current_msg is at the buffer start. -/
def MsgAlloc_InvalidMsg (cfg : AllocCfg) (s : AllocState) : AllocState :=
  let s1 := (MsgAlloc_ClearMsgSpace cfg s.current_msg s.data_ptr s).2
  let s2 := { s1 with
    data_ptr := s1.current_msg
    data_end_estimation := s1.current_msg + cfg.headerSize + 2 }
  if s2.current_msg = cfg.base then { s2 with copy_task_pointer := none } else s2

/-- MsgAlloc_ValidHeader(valid, data_size): on a valid header, wrap to
the buffer start (arming the header-copy task) when the estimated end
&current_msg->data[data_size + 2] does not fit, recompute the end
estimation, and invalidate used_msg when it lies inside the estimated
frame; on an invalid header, reset data_ptr to current_msg. -/
def MsgAlloc_ValidHeader (cfg : AllocCfg) (valid : Bool) (data_size : Nat)
    (s : AllocState) : AllocState :=
  if valid then
    let s1 :=
      if MsgAlloc_DoWeHaveSpace cfg (s.current_msg + cfg.headerSize + data_size + 2) = .FAILED then
        { s with
          copy_task_pointer := some s.current_msg
          current_msg := cfg.base
          data_ptr := cfg.base + cfg.headerSize }
      else s
    let s2 := { s1 with
      data_end_estimation := s1.current_msg + cfg.headerSize + data_size + 2 }
    match s2.used_msg with
    | some u =>
      if s2.current_msg ≤ u ∧ u ≤ s2.current_msg + cfg.headerSize + data_size + 2 then
        { s2 with used_msg := none, msg_drop_number := dropInc s2.msg_drop_number }
      else s2
    | none => s2
  else
    { s with data_ptr := s.current_msg }

/-- Push step of MsgAlloc_EndMsg on msg_tasks: when the stack is full,
remove the oldest entry (MsgAlloc_ClearMsgTask) and count a drop, then
write the new entry at msg_tasks[msg_tasks_stack_id++]. -/
def msgTasksPush (cfg : AllocCfg) (m : Nat) (tasks : List Nat) (d : Nat) :
    List Nat × Nat :=
  if tasks.length = cfg.maxMsgNb then (tasks.tail ++ [m], dropInc d)
  else (tasks ++ [m], d)

/-- MsgAlloc_EndMsg: clear [current_msg, data_ptr], push the finished
frame on msg_tasks (evicting the oldest and counting a drop when full),
then drop the 2 CRC bytes from data_ptr, wrap it to the buffer start if
a minimal next frame would not fit, otherwise advance it by one when
the byte value at *data_ptr is even; finally move current_msg there,
re-estimate the end and pre-clear the landing zone. -/
def MsgAlloc_EndMsg (cfg : AllocCfg) (s : AllocState) : AllocState :=
  let s1 := (MsgAlloc_ClearMsgSpace cfg s.current_msg s.data_ptr s).2
  let pr := msgTasksPush cfg s1.current_msg s1.msg_tasks s1.msg_drop_number
  let s3 := { s1 with msg_tasks := pr.1, msg_drop_number := pr.2 }
  let dp1 := s3.data_ptr - 2
  let dp2 :=
    if MsgAlloc_DoWeHaveSpace cfg (dp1 + cfg.headerSize + 2) = .FAILED then cfg.base
    else if s3.buf dp1 % 2 ≠ 1 then dp1 + 1 else dp1
  let s4 := { s3 with
    data_ptr := dp2
    current_msg := dp2
    data_end_estimation := dp2 + cfg.headerSize + 2 }
  (MsgAlloc_ClearMsgSpace cfg s4.current_msg (s4.current_msg + cfg.headerSize + 2) s4).2

/-- MsgAlloc_SetData: write one byte at data_ptr and advance it. -/
def MsgAlloc_SetData (d : Nat) (s : AllocState) : AllocState :=
  { s with
    buf := fun a => if a = s.data_ptr then d else s.buf a
    data_ptr := s.data_ptr + 1 }

/-- MsgAlloc_SetMessage: stage a locally produced message (header.size
field sz, stream bytes content) as if received: clamp the size, wrap
current_msg to the buffer start when the frame does not fit, clear the
space, fake the data_ptr progression, finish via MsgAlloc_EndMsg and
copy the message bytes into place. -/
def MsgAlloc_SetMessage (cfg : AllocCfg) (sz : Nat) (content : Nat → Nat)
    (s : AllocState) : AllocState :=
  let data_size := if cfg.maxData < sz then cfg.maxData + cfg.headerSize
                   else sz + cfg.headerSize
  let s1 :=
    if MsgAlloc_DoWeHaveSpace cfg (s.current_msg + data_size) = .FAILED then
      { s with current_msg := cfg.base }
    else s
  let s2 := (MsgAlloc_ClearMsgSpace cfg s1.current_msg (s1.current_msg + data_size) s1).2
  let cpy := s2.current_msg
  let s3 := { s2 with data_ptr := s2.current_msg + data_size + 2 }
  let s4 := MsgAlloc_EndMsg cfg s3
  { s4 with
    buf := fun a => if cpy ≤ a ∧ a < cpy + data_size then content (a - cpy) else s4.buf a }

/-- MsgAlloc_GetCurrentMsg: read the current message pointer. -/
def MsgAlloc_GetCurrentMsg (s : AllocState) : Nat := s.current_msg

/-- MsgAlloc_IsEmpty: SUCCEED exactly when data_ptr still sits at the
buffer start. -/
def MsgAlloc_IsEmpty (cfg : AllocCfg) (s : AllocState) : error_return_t :=
  if s.data_ptr = cfg.base then .SUCCEED else .FAILED

/-- MsgAlloc_PullMsgToInterpret: pop the oldest msg_tasks entry, or
fail (writing nothing) when the stack is empty. -/
def MsgAlloc_PullMsgToInterpret (s : AllocState) :
    error_return_t × Option Nat × AllocState :=
  match s.msg_tasks with
  | m :: rest => (.SUCCEED, some m, { s with msg_tasks := rest })
  | [] => (.FAILED, none, s)

/-- MsgAlloc_UsedMsgEnd: the consumer releases used_msg. -/
def MsgAlloc_UsedMsgEnd (s : AllocState) : AllocState :=
  { s with used_msg := none }

/-- MsgAlloc_LuosTaskAlloc(container, msg): when luos_tasks is full,
remove the oldest entry (MsgAlloc_ClearLuosTask(0), no drop counted);
then write (msg, container) at luos_tasks[luos_tasks_stack_id++] and
raise the luos watermark. -/
def MsgAlloc_LuosTaskAlloc (cfg : AllocCfg) (container msg : Nat)
    (s : AllocState) : AllocState :=
  let s1 :=
    if s.luos_tasks.length = cfg.maxMsgNb then { s with luos_tasks := s.luos_tasks.tail }
    else s
  let s2 := { s1 with luos_tasks := s1.luos_tasks ++ [(msg, container)] }
  let stat := s2.luos_tasks.length * 100 / cfg.maxMsgNb
  if s2.luos_stack_pct < stat then { s2 with luos_stack_pct := stat } else s2

/-- Search loop of MsgAlloc_PullMsg: find the oldest luos_tasks entry
for the given container and remove it, returning its message pointer
and the remaining stack. -/
def pullMsgAux (container : Nat) : List (Nat × Nat) → Option (Nat × List (Nat × Nat))
  | [] => none
  | e :: rest =>
    if e.2 = container then some (e.1, rest)
    else
      match pullMsgAux container rest with
      | some (m, l) => some (m, e :: l)
      | none => none

/-- MsgAlloc_PullMsg(container): return the oldest message allocated to
the container, set used_msg to it and remove the entry; fail (writing
nothing, changing nothing) when no entry matches. -/
def MsgAlloc_PullMsg (container : Nat) (s : AllocState) :
    error_return_t × Option Nat × AllocState :=
  match pullMsgAux container s.luos_tasks with
  | some (m, l) => (.SUCCEED, some m, { s with used_msg := some m, luos_tasks := l })
  | none => (.FAILED, none, s)

/-- MsgAlloc_PullMsgFromLuosTask(i): return luos_tasks[i].msg_pt, set
used_msg and remove the entry; fail when i is out of range. -/
def MsgAlloc_PullMsgFromLuosTask (i : Nat) (s : AllocState) :
    error_return_t × Option Nat × AllocState :=
  match s.luos_tasks.get? i with
  | some e =>
    (.SUCCEED, some e.1,
      { s with used_msg := some e.1, luos_tasks := s.luos_tasks.eraseIdx i })
  | none => (.FAILED, none, s)

/-- MsgAlloc_LuosTasksNbr: number of luos_tasks entries. -/
def MsgAlloc_LuosTasksNbr (s : AllocState) : Nat := s.luos_tasks.length

/-- MsgAlloc_ClearMsgFromLuosTasks(msg): remove every luos_tasks entry
whose msg_pt equals msg. -/
def MsgAlloc_ClearMsgFromLuosTasks (msg : Nat) (s : AllocState) : AllocState :=
  { s with luos_tasks := s.luos_tasks.filter (fun e => e.1 ≠ msg) }

/-- Relocation and push phase of MsgAlloc_SetTxTask, up to and
including the tx_tasks write at tx_tasks[tx_tasks_stack_id++]; returns
the staged frame address together with the state at the point where
the overflow check is made. -/
def MsgAlloc_SetTxTask_prePull (cfg : AllocCfg) (data : Nat → Nat) (size : Nat)
    (s : AllocState) : Nat × AllocState :=
  let progression_size := s.data_ptr - s.current_msg
  let estimated_size := s.data_end_estimation - s.current_msg
  let rx_msg_bkp := s.current_msg
  let p :=
    if MsgAlloc_DoWeHaveSpace cfg (s.current_msg + size) = .FAILED then
      let st := { s with
        current_msg := cfg.base + size
        data_ptr := cfg.base + size + progression_size
        data_end_estimation := cfg.base + size + estimated_size }
      (cfg.base, (MsgAlloc_ClearMsgSpace cfg cfg.base st.data_end_estimation st).2)
    else
      let tx := s.current_msg
      if MsgAlloc_DoWeHaveSpace cfg (s.current_msg + size + estimated_size) = .FAILED then
        let sa := (MsgAlloc_ClearMsgSpace cfg tx (tx + size) s).2
        let sb := { sa with
          current_msg := cfg.base
          data_end_estimation := cfg.base + estimated_size }
        let sc := (MsgAlloc_ClearMsgSpace cfg sb.current_msg sb.data_end_estimation sb).2
        (tx, { sc with data_ptr := sc.current_msg + progression_size })
      else
        let sa := { s with
          current_msg := s.current_msg + size
          data_end_estimation := s.current_msg + size + estimated_size }
        let sb := (MsgAlloc_ClearMsgSpace cfg tx sa.data_end_estimation sa).2
        (tx, { sb with data_ptr := sb.current_msg + progression_size })
  let tx_msg := p.1
  let s1 := p.2
  let s2 := { s1 with
    buf := fun a =>
      if s1.current_msg ≤ a ∧ a < s1.current_msg + progression_size then
        s1.buf (rx_msg_bkp + (a - s1.current_msg))
      else s1.buf a }
  let s3 := { s2 with
    buf := fun a => if tx_msg ≤ a ∧ a < tx_msg + 3 then data (a - tx_msg) else s2.buf a }
  (tx_msg, { s3 with tx_tasks := s3.tx_tasks ++ [(tx_msg, size)] })

/-- MsgAlloc_SetTxTask(data, size): relocate the in-flight reception
around the staged frame, push (tx_msg, size) on tx_tasks, pop the
oldest tx task and count a drop when the push filled the stack, and
copy the remaining bytes of the frame. -/
def MsgAlloc_SetTxTask (cfg : AllocCfg) (data : Nat → Nat) (size : Nat)
    (s : AllocState) : AllocState :=
  let p := MsgAlloc_SetTxTask_prePull cfg data size s
  let tx_msg := p.1
  let s4 := p.2
  let s5 :=
    if s4.tx_tasks.length = cfg.maxMsgNb then
      { s4 with tx_tasks := s4.tx_tasks.tail, msg_drop_number := dropInc s4.msg_drop_number }
    else s4
  { s5 with
    buf := fun a =>
      if tx_msg + 3 ≤ a ∧ a < tx_msg + size then data (a - tx_msg) else s5.buf a }

/-- MsgAlloc_PullMsgFromTxTask: dequeue the oldest tx task (slide left,
decrement the counter, zero the freed slot). -/
def MsgAlloc_PullMsgFromTxTask (s : AllocState) : AllocState :=
  { s with tx_tasks := s.tx_tasks.tail }

/-- Modelled from the spec: LUOS_ASSERT comes from luos_utils.h, which
is not among the sources; per the specification an assertion violation
is fatal (host assert/halt).  This predicate is the condition asserted
at the top of MsgAlloc_PullMsgFromTxTask:
(tx_tasks_stack_id > 0) && (tx_tasks_stack_id < MAX_MSG_NB). -/
def PullMsgFromTxTask_assert_holds (cfg : AllocCfg) (s : AllocState) : Prop :=
  0 < s.tx_tasks.length ∧ s.tx_tasks.length < cfg.maxMsgNb

/-- State-dependent part of the assertion at the top of
MsgAlloc_SetTxTask: (tx_tasks_stack_id >= 0) && (tx_tasks_stack_id <
MAX_MSG_NB) && ... && (current_msg < &msg_buffer[MSG_BUFFER_SIZE]) &&
(current_msg >= &msg_buffer[0]).  (tx_tasks_stack_id >= 0 is trivially
true for an unsigned counter, and (uint32_t)data > 0 concerns only the
argument pointer.) -/
def SetTxTask_assert_holds (cfg : AllocCfg) (s : AllocState) : Prop :=
  s.tx_tasks.length < cfg.maxMsgNb ∧
  cfg.base ≤ s.current_msg ∧ s.current_msg < cfg.base + cfg.bufferSize

/-- MsgAlloc_GetTxTask: peek the oldest tx task, or fail (writing
nothing) when the stack is empty; no global is written either way. -/
def MsgAlloc_GetTxTask (s : AllocState) :
    error_return_t × Option (Nat × Nat) × AllocState :=
  match s.tx_tasks with
  | e :: _ => (.SUCCEED, some e, s)
  | [] => (.FAILED, none, s)

/-! ## Helper lemmas -/

theorem doWeHaveSpace_failed_iff (cfg : AllocCfg) (x : Nat) :
    (MsgAlloc_DoWeHaveSpace cfg x = .FAILED) ↔ cfg.base + cfg.bufferSize - 1 < x := by
  unfold MsgAlloc_DoWeHaveSpace
  split <;> simp_all

theorem dropInc_spec (d : Nat) :
    (d < 255 ∧ dropInc d = d + 1) ∨ (255 ≤ d ∧ dropInc d = d) := by
  unfold dropInc
  split <;> omega

@[simp] theorem clearMsgSpace_current_msg (cfg : AllocCfg) (f t : Nat) (s : AllocState) :
    (MsgAlloc_ClearMsgSpace cfg f t s).2.current_msg = s.current_msg := by
  unfold MsgAlloc_ClearMsgSpace
  split
  · rfl
  · rcases s.used_msg with _ | u <;> simp <;> split <;> simp

@[simp] theorem clearMsgSpace_data_ptr (cfg : AllocCfg) (f t : Nat) (s : AllocState) :
    (MsgAlloc_ClearMsgSpace cfg f t s).2.data_ptr = s.data_ptr := by
  unfold MsgAlloc_ClearMsgSpace
  split
  · rfl
  · rcases s.used_msg with _ | u <;> simp <;> split <;> simp

@[simp] theorem clearMsgSpace_data_end (cfg : AllocCfg) (f t : Nat) (s : AllocState) :
    (MsgAlloc_ClearMsgSpace cfg f t s).2.data_end_estimation = s.data_end_estimation := by
  unfold MsgAlloc_ClearMsgSpace
  split
  · rfl
  · rcases s.used_msg with _ | u <;> simp <;> split <;> simp

@[simp] theorem clearMsgSpace_buf (cfg : AllocCfg) (f t : Nat) (s : AllocState) :
    (MsgAlloc_ClearMsgSpace cfg f t s).2.buf = s.buf := by
  unfold MsgAlloc_ClearMsgSpace
  split
  · rfl
  · rcases s.used_msg with _ | u <;> simp <;> split <;> simp

@[simp] theorem clearMsgSpace_tx (cfg : AllocCfg) (f t : Nat) (s : AllocState) :
    (MsgAlloc_ClearMsgSpace cfg f t s).2.tx_tasks = s.tx_tasks := by
  unfold MsgAlloc_ClearMsgSpace
  split
  · rfl
  · rcases s.used_msg with _ | u <;> simp <;> split <;> simp

@[simp] theorem clearMsgSpace_copy (cfg : AllocCfg) (f t : Nat) (s : AllocState) :
    (MsgAlloc_ClearMsgSpace cfg f t s).2.copy_task_pointer = s.copy_task_pointer := by
  unfold MsgAlloc_ClearMsgSpace
  split
  · rfl
  · rcases s.used_msg with _ | u <;> simp <;> split <;> simp

theorem pullMsgAux_eq_none (c : Nat) (l : List (Nat × Nat))
    (h : ∀ e ∈ l, e.2 ≠ c) : pullMsgAux c l = none := by
  induction l with
  | nil => rfl
  | cons e rest ih =>
    have he : e.2 ≠ c := h e (by simp)
    simp [pullMsgAux, he, ih (fun x hx => h x (by simp [hx]))]

theorem pullMsgAux_append (c F : Nat) (l : List (Nat × Nat))
    (h : ∀ e ∈ l, e.2 ≠ c) : pullMsgAux c (l ++ [(F, c)]) = some (F, l) := by
  induction l with
  | nil => simp [pullMsgAux]
  | cons e rest ih =>
    have he : e.2 ≠ c := h e (by simp)
    simp [pullMsgAux, he, ih (fun x hx => h x (by simp [hx]))]

/-! ## Concrete fixtures for witnesses and counterexamples -/

/-- Sample build configuration: 64-byte buffer at address 100, stacks
of capacity 4, 7-byte header, payload clamp 16. -/
def cfg64 : AllocCfg :=
  { bufferSize := 64, maxMsgNb := 4, headerSize := 7, maxData := 16, base := 100 }

/-- Freshly initialised sample state. -/
def state0 : AllocState :=
  { current_msg := 100, data_ptr := 100, data_end_estimation := 109,
    copy_task_pointer := none, msg_tasks := [], used_msg := none,
    luos_tasks := [], tx_tasks := [], buf := fun _ => 0,
    msg_drop_number := 0, msg_stack_pct := 0, luos_stack_pct := 0 }

/-! ## C9 -/

/-- C9: MsgAlloc_Init resets the reception cursor, msg_tasks,
luos_tasks, the header-copy task pointer and used_msg, but leaves the
tx task stack untouched: tx_tasks (hence tx_tasks_stack_id, its entry
count) keeps its prior value across a call to Init. -/
theorem C9_init_leaves_tx_tasks (cfg : AllocCfg) (s : AllocState) :
    (MsgAlloc_Init cfg s).tx_tasks = s.tx_tasks ∧
    (MsgAlloc_Init cfg s).tx_tasks.length = s.tx_tasks.length ∧
    (MsgAlloc_Init cfg s).current_msg = cfg.base ∧
    (MsgAlloc_Init cfg s).data_ptr = cfg.base ∧
    (MsgAlloc_Init cfg s).data_end_estimation = cfg.base + cfg.headerSize + 2 ∧
    (MsgAlloc_Init cfg s).msg_tasks = [] ∧
    (MsgAlloc_Init cfg s).luos_tasks = [] ∧
    (MsgAlloc_Init cfg s).copy_task_pointer = none ∧
    (MsgAlloc_Init cfg s).used_msg = none := by
  simp [MsgAlloc_Init]

/-! ## C10 -/

/-- C10: every pull or peek that returns FAILED leaves the allocator
state completely unchanged and does not write through its out
parameter (modelled as the returned Option being none):
MsgAlloc_PullMsgToInterpret on an empty msg_tasks stack,
MsgAlloc_PullMsg with no matching endpoint entry,
MsgAlloc_PullMsgFromLuosTask with an out-of-range index and
MsgAlloc_GetTxTask on an empty tx_tasks stack. -/
theorem C10_failed_pulls_change_nothing (s : AllocState) (container i : Nat)
    (h1 : s.msg_tasks = [])
    (h2 : ∀ e ∈ s.luos_tasks, e.2 ≠ container)
    (h3 : s.luos_tasks.length ≤ i)
    (h4 : s.tx_tasks = []) :
    MsgAlloc_PullMsgToInterpret s = (.FAILED, none, s) ∧
    MsgAlloc_PullMsg container s = (.FAILED, none, s) ∧
    MsgAlloc_PullMsgFromLuosTask i s = (.FAILED, none, s) ∧
    MsgAlloc_GetTxTask s = (.FAILED, none, s) := by
  refine ⟨?_, ?_, ?_, ?_⟩
  · simp [MsgAlloc_PullMsgToInterpret, h1]
  · simp [MsgAlloc_PullMsg, pullMsgAux_eq_none container s.luos_tasks h2]
  · simp [MsgAlloc_PullMsgFromLuosTask, List.getElem?_eq_none h3]
  · simp [MsgAlloc_GetTxTask, h4]

theorem C10_witness :
    MsgAlloc_PullMsgToInterpret state0 = (.FAILED, none, state0) ∧
    MsgAlloc_PullMsg 7 state0 = (.FAILED, none, state0) ∧
    MsgAlloc_PullMsgFromLuosTask 0 state0 = (.FAILED, none, state0) ∧
    MsgAlloc_GetTxTask state0 = (.FAILED, none, state0) :=
  C10_failed_pulls_change_nothing state0 7 0 rfl (by simp [state0]) (by simp [state0]) rfl

/-! ## C7 -/

/-- C7: starting from a state with no luos_tasks entry for the given
container and a non-full stack, MsgAlloc_LuosTaskAlloc(container, F)
followed by MsgAlloc_PullMsg(container) yields SUCCEED with pointer F
and sets used_msg to F, and a second MsgAlloc_PullMsg(container)
without an intervening alloc yields FAILED. -/
theorem C7_alloc_pull_pull (cfg : AllocCfg) (s : AllocState) (container F : Nat)
    (hroom : s.luos_tasks.length < cfg.maxMsgNb)
    (hnone : ∀ e ∈ s.luos_tasks, e.2 ≠ container) :
    (MsgAlloc_PullMsg container (MsgAlloc_LuosTaskAlloc cfg container F s)).1 = .SUCCEED ∧
    (MsgAlloc_PullMsg container (MsgAlloc_LuosTaskAlloc cfg container F s)).2.1 = some F ∧
    (MsgAlloc_PullMsg container (MsgAlloc_LuosTaskAlloc cfg container F s)).2.2.used_msg = some F ∧
    (MsgAlloc_PullMsg container
      (MsgAlloc_PullMsg container (MsgAlloc_LuosTaskAlloc cfg container F s)).2.2).1 = .FAILED := by
  have hne : s.luos_tasks.length ≠ cfg.maxMsgNb := Nat.ne_of_lt hroom
  have hl : (MsgAlloc_LuosTaskAlloc cfg container F s).luos_tasks =
      s.luos_tasks ++ [(F, container)] := by
    unfold MsgAlloc_LuosTaskAlloc
    simp only [hne, if_false]
    split <;> simp
  have hp : pullMsgAux container (MsgAlloc_LuosTaskAlloc cfg container F s).luos_tasks =
      some (F, s.luos_tasks) := by
    rw [hl]
    exact pullMsgAux_append container F s.luos_tasks hnone
  unfold MsgAlloc_PullMsg
  simp only [hp]
  simp [pullMsgAux_eq_none container s.luos_tasks hnone]

theorem C7_witness :
    (MsgAlloc_PullMsg 3 (MsgAlloc_LuosTaskAlloc cfg64 3 125 state0)).1 = .SUCCEED ∧
    (MsgAlloc_PullMsg 3 (MsgAlloc_LuosTaskAlloc cfg64 3 125 state0)).2.1 = some 125 ∧
    (MsgAlloc_PullMsg 3 (MsgAlloc_LuosTaskAlloc cfg64 3 125 state0)).2.2.used_msg = some 125 ∧
    (MsgAlloc_PullMsg 3
      (MsgAlloc_PullMsg 3 (MsgAlloc_LuosTaskAlloc cfg64 3 125 state0)).2.2).1 = .FAILED :=
  C7_alloc_pull_pull cfg64 state0 3 125 (by decide) (by simp [state0])

/-! ## C1 -/

/-- Test whether used_msg holds a pointer lying in [f, t] (a null
used_msg never does). -/
def usedHit (f t : Nat) (u : Option Nat) : Bool :=
  match u with
  | some x => decide (f ≤ x ∧ x ≤ t)
  | none => false

theorem dropInc_iterate_chain (k1 k2 k3 d : Nat) :
    dropInc^[k3] (dropInc^[k2] (dropInc^[k1] d)) = dropInc^[k1 + k2 + k3] d := by
  have h : k1 + k2 + k3 = k3 + (k2 + k1) := by omega
  rw [h, Function.iterate_add_apply, Function.iterate_add_apply]

theorem sweepLuos_eq (f t : Nat) (l : List (Nat × Nat)) (d : Nat) :
    sweepLuos f t l d =
      (l.dropWhile (fun e => decide (f ≤ e.1 ∧ e.1 ≤ t)),
       dropInc^[(l.takeWhile (fun e => decide (f ≤ e.1 ∧ e.1 ≤ t))).length] d) := by
  induction l generalizing d with
  | nil => simp [sweepLuos]
  | cons e rest ih =>
    by_cases h : f ≤ e.1 ∧ e.1 ≤ t
    · simp [sweepLuos, h, ih, List.dropWhile_cons, List.takeWhile_cons,
        Function.iterate_succ_apply]
    · simp [sweepLuos, h, List.dropWhile_cons, List.takeWhile_cons]

theorem sweepMsg_eq (f t : Nat) (l : List Nat) (d : Nat) :
    sweepMsg f t l d =
      (l.dropWhile (fun m => decide (f ≤ m ∧ m ≤ t)),
       dropInc^[(l.takeWhile (fun m => decide (f ≤ m ∧ m ≤ t))).length] d) := by
  induction l generalizing d with
  | nil => simp [sweepMsg]
  | cons m rest ih =>
    by_cases h : f ≤ m ∧ m ≤ t
    · simp [sweepMsg, h, ih, List.dropWhile_cons, List.takeWhile_cons,
        Function.iterate_succ_apply]
    · simp [sweepMsg, h, List.dropWhile_cons, List.takeWhile_cons]

theorem clearMsgSpace_succeed_state (cfg : AllocCfg) (f t : Nat) (s : AllocState)
    (ht : ¬ (cfg.base + cfg.bufferSize - 1 < t)) :
    MsgAlloc_ClearMsgSpace cfg f t s =
      (.SUCCEED,
        { s with
          used_msg := if usedHit f t s.used_msg then none else s.used_msg
          luos_tasks := s.luos_tasks.dropWhile (fun e => decide (f ≤ e.1 ∧ e.1 ≤ t))
          msg_tasks := s.msg_tasks.dropWhile (fun m => decide (f ≤ m ∧ m ≤ t))
          msg_drop_number :=
            dropInc^[(s.msg_tasks.takeWhile (fun m => decide (f ≤ m ∧ m ≤ t))).length]
              (dropInc^[(s.luos_tasks.takeWhile (fun e => decide (f ≤ e.1 ∧ e.1 ≤ t))).length]
                (dropInc^[if usedHit f t s.used_msg then 1 else 0] s.msg_drop_number)) }) := by
  unfold MsgAlloc_ClearMsgSpace
  simp only [ht, if_false]
  rcases hu : s.used_msg with _ | u
  · simp [usedHit, hu, sweepLuos_eq, sweepMsg_eq]
  · by_cases hin : f ≤ u ∧ u ≤ t
    · simp [usedHit, hu, hin, sweepLuos_eq, sweepMsg_eq, Function.iterate_one]
    · simp [usedHit, hu, hin, sweepLuos_eq, sweepMsg_eq]

/-- C1: MsgAlloc_ClearMsgSpace(from, to) returns FAILED exactly when to
lies past the last buffer byte, and then changes nothing; otherwise it
returns SUCCEED after (1) nulling used_msg and counting one (saturating)
drop when used_msg lies in [from, to], (2) popping the oldest luos_tasks
entry while luos_tasks[0].msg_pt lies in [from, to] and the stack is
non-empty, one drop per pop, and (3) doing the same for msg_tasks; the
cursor, tx stack, copy task and buffer bytes are untouched. -/
theorem C1_clearMsgSpace (cfg : AllocCfg) (f t : Nat) (s : AllocState) :
    ((MsgAlloc_ClearMsgSpace cfg f t s).1 = .FAILED ↔ cfg.base + cfg.bufferSize - 1 < t) ∧
    (cfg.base + cfg.bufferSize - 1 < t → (MsgAlloc_ClearMsgSpace cfg f t s).2 = s) ∧
    (t ≤ cfg.base + cfg.bufferSize - 1 →
      (MsgAlloc_ClearMsgSpace cfg f t s).1 = .SUCCEED ∧
      (MsgAlloc_ClearMsgSpace cfg f t s).2.used_msg =
        (if usedHit f t s.used_msg then none else s.used_msg) ∧
      (MsgAlloc_ClearMsgSpace cfg f t s).2.luos_tasks =
        s.luos_tasks.dropWhile (fun e => decide (f ≤ e.1 ∧ e.1 ≤ t)) ∧
      (MsgAlloc_ClearMsgSpace cfg f t s).2.msg_tasks =
        s.msg_tasks.dropWhile (fun m => decide (f ≤ m ∧ m ≤ t)) ∧
      (MsgAlloc_ClearMsgSpace cfg f t s).2.msg_drop_number =
        dropInc^[(if usedHit f t s.used_msg then 1 else 0) +
          (s.luos_tasks.takeWhile (fun e => decide (f ≤ e.1 ∧ e.1 ≤ t))).length +
          (s.msg_tasks.takeWhile (fun m => decide (f ≤ m ∧ m ≤ t))).length]
          s.msg_drop_number ∧
      (MsgAlloc_ClearMsgSpace cfg f t s).2.current_msg = s.current_msg ∧
      (MsgAlloc_ClearMsgSpace cfg f t s).2.data_ptr = s.data_ptr ∧
      (MsgAlloc_ClearMsgSpace cfg f t s).2.data_end_estimation = s.data_end_estimation ∧
      (MsgAlloc_ClearMsgSpace cfg f t s).2.tx_tasks = s.tx_tasks ∧
      (MsgAlloc_ClearMsgSpace cfg f t s).2.copy_task_pointer = s.copy_task_pointer ∧
      (MsgAlloc_ClearMsgSpace cfg f t s).2.buf = s.buf) := by
  refine ⟨?_, ?_, ?_⟩
  · unfold MsgAlloc_ClearMsgSpace
    by_cases ht : cfg.base + cfg.bufferSize - 1 < t <;> simp [ht]
  · intro ht
    unfold MsgAlloc_ClearMsgSpace
    simp [ht]
  · intro ht
    have hnot : ¬ (cfg.base + cfg.bufferSize - 1 < t) := by omega
    rw [clearMsgSpace_succeed_state cfg f t s hnot]
    refine ⟨rfl, rfl, rfl, rfl, ?_, rfl, rfl, rfl, rfl, rfl, rfl⟩
    rw [← dropInc_iterate_chain]

/-- Fixture for the C1 witness: a pending used_msg and stacks whose
oldest entries lie inside the cleared window. -/
def stC1 : AllocState :=
  { state0 with
    used_msg := some 110
    luos_tasks := [(105, 1), (130, 2)]
    msg_tasks := [108, 140] }

theorem C1_witness :
    (120 : Nat) ≤ cfg64.base + cfg64.bufferSize - 1 ∧
    (MsgAlloc_ClearMsgSpace cfg64 100 120 stC1).1 = .SUCCEED ∧
    (MsgAlloc_ClearMsgSpace cfg64 100 120 stC1).2.used_msg = none ∧
    (MsgAlloc_ClearMsgSpace cfg64 100 120 stC1).2.luos_tasks = [(130, 2)] ∧
    (MsgAlloc_ClearMsgSpace cfg64 100 120 stC1).2.msg_tasks = [140] ∧
    (MsgAlloc_ClearMsgSpace cfg64 100 120 stC1).2.msg_drop_number = 3 := by
  have h := (C1_clearMsgSpace cfg64 100 120 stC1).2.2 (by decide)
  exact ⟨by decide, h.1, by decide, by decide, by decide, by decide⟩

/-! ## C2 -/

/-- Fixture for the C2 counterexample: a full luos_tasks stack (4
entries for capacity 4) and a drop counter well below saturation. -/
def stC2 : AllocState :=
  { state0 with luos_tasks := [(101, 1), (102, 2), (103, 3), (104, 4)] }

/-- C2 counterexample: on a full luos_tasks stack,
MsgAlloc_LuosTaskAlloc evicts the oldest entry and writes the new one,
yet msg_drop_number stays at 0 instead of being incremented, refuting
the claim that the eviction increments the drop counter. -/
theorem C2_counterexample_luosTaskAlloc :
    stC2.luos_tasks.length = cfg64.maxMsgNb ∧
    stC2.msg_drop_number = 0 ∧
    (MsgAlloc_LuosTaskAlloc cfg64 9 140 stC2).luos_tasks =
      [(102, 2), (103, 3), (104, 4), (140, 9)] ∧
    (MsgAlloc_LuosTaskAlloc cfg64 9 140 stC2).msg_drop_number = 0 := by
  refine ⟨by decide, by decide, by decide, by decide⟩

/-- C2 (amended): a push onto a full stack evicts the entry at index 0,
slides the others left and writes the new entry; the msg_tasks push in
MsgAlloc_EndMsg (msgTasksPush) additionally increments the drop
counter, but MsgAlloc_LuosTaskAlloc evicts the oldest luos_tasks entry
without incrementing msg_drop_number. -/
theorem C2_full_stack_push (cfg : AllocCfg) (s : AllocState)
    (container msg m d : Nat) (tasks : List Nat)
    (hfullL : s.luos_tasks.length = cfg.maxMsgNb)
    (hfullM : tasks.length = cfg.maxMsgNb) :
    msgTasksPush cfg m tasks d = (tasks.tail ++ [m], dropInc d) ∧
    (MsgAlloc_LuosTaskAlloc cfg container msg s).luos_tasks =
      s.luos_tasks.tail ++ [(msg, container)] ∧
    (MsgAlloc_LuosTaskAlloc cfg container msg s).msg_drop_number =
      s.msg_drop_number := by
  refine ⟨?_, ?_, ?_⟩
  · unfold msgTasksPush
    simp [hfullM]
  · unfold MsgAlloc_LuosTaskAlloc
    simp only [hfullL, if_true]
    split <;> simp
  · unfold MsgAlloc_LuosTaskAlloc
    simp only [hfullL, if_true]
    split <;> simp

theorem C2_witness :
    msgTasksPush cfg64 140 [101, 102, 103, 104] 7 = ([102, 103, 104, 140], 8) ∧
    (MsgAlloc_LuosTaskAlloc cfg64 9 140 stC2).luos_tasks =
      [(102, 2), (103, 3), (104, 4), (140, 9)] ∧
    (MsgAlloc_LuosTaskAlloc cfg64 9 140 stC2).msg_drop_number =
      stC2.msg_drop_number :=
  C2_full_stack_push cfg64 stC2 9 140 140 7 [101, 102, 103, 104] (by decide) (by decide)

/-! ## C3 -/

/-- C3: for MsgAlloc_ValidHeader(true, data_size), when the computed
frame end current_msg + sizeof(header_t) + data_size + 2 does not fit
in the buffer, the header-copy task is armed with the old current_msg
address, current_msg moves to the buffer start, data_ptr to buffer +
sizeof(header_t), and the end estimation is recomputed from the new
current_msg; in every valid case used_msg is nulled (one saturating
drop) exactly when it lies within [current_msg, current_msg +
sizeof(header_t) + data_size + 2] for the possibly wrapped current_msg;
for valid = false only data_ptr is reset, to current_msg. -/
theorem C3_validHeader (cfg : AllocCfg) (ds : Nat) (s : AllocState) :
    (MsgAlloc_ValidHeader cfg false ds s = { s with data_ptr := s.current_msg }) ∧
    (cfg.base + cfg.bufferSize - 1 < s.current_msg + cfg.headerSize + ds + 2 →
      (MsgAlloc_ValidHeader cfg true ds s).copy_task_pointer = some s.current_msg ∧
      (MsgAlloc_ValidHeader cfg true ds s).current_msg = cfg.base ∧
      (MsgAlloc_ValidHeader cfg true ds s).data_ptr = cfg.base + cfg.headerSize ∧
      (MsgAlloc_ValidHeader cfg true ds s).data_end_estimation =
        cfg.base + cfg.headerSize + ds + 2) ∧
    (s.current_msg + cfg.headerSize + ds + 2 ≤ cfg.base + cfg.bufferSize - 1 →
      (MsgAlloc_ValidHeader cfg true ds s).copy_task_pointer = s.copy_task_pointer ∧
      (MsgAlloc_ValidHeader cfg true ds s).current_msg = s.current_msg ∧
      (MsgAlloc_ValidHeader cfg true ds s).data_ptr = s.data_ptr ∧
      (MsgAlloc_ValidHeader cfg true ds s).data_end_estimation =
        s.current_msg + cfg.headerSize + ds + 2) ∧
    (∀ u, s.used_msg = some u →
      ((if cfg.base + cfg.bufferSize - 1 < s.current_msg + cfg.headerSize + ds + 2
          then cfg.base else s.current_msg) ≤ u ∧
        u ≤ (if cfg.base + cfg.bufferSize - 1 < s.current_msg + cfg.headerSize + ds + 2
          then cfg.base else s.current_msg) + cfg.headerSize + ds + 2 →
        (MsgAlloc_ValidHeader cfg true ds s).used_msg = none ∧
        (MsgAlloc_ValidHeader cfg true ds s).msg_drop_number =
          dropInc s.msg_drop_number) ∧
      (¬ ((if cfg.base + cfg.bufferSize - 1 < s.current_msg + cfg.headerSize + ds + 2
          then cfg.base else s.current_msg) ≤ u ∧
        u ≤ (if cfg.base + cfg.bufferSize - 1 < s.current_msg + cfg.headerSize + ds + 2
          then cfg.base else s.current_msg) + cfg.headerSize + ds + 2) →
        (MsgAlloc_ValidHeader cfg true ds s).used_msg = s.used_msg ∧
        (MsgAlloc_ValidHeader cfg true ds s).msg_drop_number = s.msg_drop_number)) := by
  have hsp := doWeHaveSpace_failed_iff cfg (s.current_msg + cfg.headerSize + ds + 2)
  refine ⟨?_, ?_, ?_, ?_⟩
  · unfold MsgAlloc_ValidHeader
    simp
  · intro hfail
    have h1 : MsgAlloc_DoWeHaveSpace cfg (s.current_msg + cfg.headerSize + ds + 2) = .FAILED :=
      hsp.mpr hfail
    unfold MsgAlloc_ValidHeader
    simp only [if_true, h1]
    rcases hu : s.used_msg with _ | u <;> simp [hu] <;> split <;> simp
  · intro hfit
    have h1 : ¬ (MsgAlloc_DoWeHaveSpace cfg (s.current_msg + cfg.headerSize + ds + 2) = .FAILED) := by
      rw [hsp]; omega
    unfold MsgAlloc_ValidHeader
    simp only [if_true, h1, if_false]
    rcases hu : s.used_msg with _ | u <;> simp [hu] <;> split <;> simp
  · intro u hu
    by_cases hfail : cfg.base + cfg.bufferSize - 1 < s.current_msg + cfg.headerSize + ds + 2
    · have h1 : MsgAlloc_DoWeHaveSpace cfg (s.current_msg + cfg.headerSize + ds + 2) = .FAILED :=
        hsp.mpr hfail
      unfold MsgAlloc_ValidHeader
      simp only [if_true, h1, if_pos hfail]
      constructor
      · intro hin
        simp [hu, hin]
      · intro hout
        simp [hu, hout]
    · have h1 : ¬ (MsgAlloc_DoWeHaveSpace cfg (s.current_msg + cfg.headerSize + ds + 2) = .FAILED) := by
        rw [hsp]; omega
      unfold MsgAlloc_ValidHeader
      simp only [if_true, h1, if_false, if_neg hfail]
      constructor
      · intro hin
        simp [hu, hin]
      · intro hout
        simp [hu, hout]

/-- Fixture for the C3 witness: a frame whose estimated end 169 lies
past the last buffer byte 163, with a pending used_msg at 105 inside
the post-wrap window [100, 119]. -/
def stC3 : AllocState :=
  { state0 with current_msg := 150, data_ptr := 157, used_msg := some 105 }

theorem C3_witness :
    (MsgAlloc_ValidHeader cfg64 true 10 stC3).copy_task_pointer = some 150 ∧
    (MsgAlloc_ValidHeader cfg64 true 10 stC3).current_msg = 100 ∧
    (MsgAlloc_ValidHeader cfg64 true 10 stC3).data_ptr = 107 ∧
    (MsgAlloc_ValidHeader cfg64 true 10 stC3).data_end_estimation = 119 ∧
    (MsgAlloc_ValidHeader cfg64 true 10 stC3).used_msg = none ∧
    (MsgAlloc_ValidHeader cfg64 true 10 stC3).msg_drop_number = 1 := by
  have hwrap := (C3_validHeader cfg64 10 stC3).2.1 (by decide)
  have hused := ((C3_validHeader cfg64 10 stC3).2.2.2 105 rfl).1 (by decide)
  exact ⟨hwrap.1, hwrap.2.1, hwrap.2.2.1, hwrap.2.2.2, hused.1, by decide⟩

/-! ## C4 -/

/-- C4: after the finished frame is pushed, MsgAlloc_EndMsg drops the 2
CRC bytes from data_ptr; if data_ptr + sizeof(header_t) + 2 would lie
past the last buffer byte, data_ptr wraps to the buffer start;
otherwise it advances by exactly 1 precisely when the byte value stored
at *data_ptr is even (the condition reads the data value, not the
address); then current_msg is set to data_ptr and the end estimation to
current_msg + sizeof(header_t) + 2. -/
theorem C4_endMsg_cursor (cfg : AllocCfg) (s : AllocState) (h2 : 2 ≤ s.data_ptr) :
    (cfg.base + cfg.bufferSize - 1 < s.data_ptr - 2 + cfg.headerSize + 2 →
       (MsgAlloc_EndMsg cfg s).data_ptr = cfg.base) ∧
    (s.data_ptr - 2 + cfg.headerSize + 2 ≤ cfg.base + cfg.bufferSize - 1 →
       ((MsgAlloc_EndMsg cfg s).data_ptr = s.data_ptr - 2 + 1 ↔
          s.buf (s.data_ptr - 2) % 2 = 0) ∧
       ((MsgAlloc_EndMsg cfg s).data_ptr = s.data_ptr - 2 ↔
          s.buf (s.data_ptr - 2) % 2 = 1)) ∧
    (MsgAlloc_EndMsg cfg s).current_msg = (MsgAlloc_EndMsg cfg s).data_ptr ∧
    (MsgAlloc_EndMsg cfg s).data_end_estimation =
      (MsgAlloc_EndMsg cfg s).current_msg + cfg.headerSize + 2 := by
  by_cases hc : cfg.base + cfg.bufferSize - 1 < s.data_ptr - 2 + cfg.headerSize + 2
  · have h1 : MsgAlloc_DoWeHaveSpace cfg (s.data_ptr - 2 + cfg.headerSize + 2) = .FAILED :=
      (doWeHaveSpace_failed_iff cfg _).mpr hc
    refine ⟨fun _ => ?_, fun hcon => absurd hc (by omega), ?_, ?_⟩ <;>
      unfold MsgAlloc_EndMsg <;>
      simp [h1]
  · have h1 : ¬ (MsgAlloc_DoWeHaveSpace cfg (s.data_ptr - 2 + cfg.headerSize + 2) = .FAILED) := by
      rw [doWeHaveSpace_failed_iff]; omega
    have hpar : s.buf (s.data_ptr - 2) % 2 = 0 ∨ s.buf (s.data_ptr - 2) % 2 = 1 := by omega
    refine ⟨fun hcon => absurd hcon hc, fun _ => ?_, ?_, ?_⟩ <;>
      unfold MsgAlloc_EndMsg <;>
      rcases hpar with hp | hp <;>
      simp [h1, hp] <;>
      omega
/-- Fixture for the C4 witness: a finished frame spanning [100, 121)
whose two CRC bytes end at data_ptr = 121; the byte value at address
119 is 0, hence even. -/
def stC4 : AllocState :=
  { state0 with data_ptr := 121, data_end_estimation := 121 }

theorem C4_witness :
    2 ≤ stC4.data_ptr ∧
    (MsgAlloc_EndMsg cfg64 stC4).data_ptr = 120 ∧
    (MsgAlloc_EndMsg cfg64 stC4).current_msg = 120 ∧
    (MsgAlloc_EndMsg cfg64 stC4).data_end_estimation = 129 := by
  have h := C4_endMsg_cursor cfg64 stC4 (by decide)
  have hdp : (MsgAlloc_EndMsg cfg64 stC4).data_ptr = 120 :=
    ((h.2.1 (by decide)).1.mpr (by decide)).trans (by decide)
  exact ⟨by decide, hdp, by decide, by decide⟩

/-! ## C5 -/

/-- Fixture for C5: three staged tx tasks, so the next
MsgAlloc_SetTxTask push makes tx_tasks_stack_id reach MAX_MSG_NB. -/
def stC5 : AllocState :=
  { state0 with tx_tasks := [(10, 5), (20, 5), (30, 5)] }

/-- C5: when the push inside MsgAlloc_SetTxTask makes
tx_tasks_stack_id reach MAX_MSG_NB, the code does pop the oldest tx
task and count a drop, but the assertion at the top of
MsgAlloc_PullMsgFromTxTask — tx_tasks_stack_id < MAX_MSG_NB — is false
at that call (the counter equals MAX_MSG_NB there), although the entry
assertion of MsgAlloc_SetTxTask held: the claimed assertion-free
overflow path does not exist in the code. -/
theorem C5_overflow_assert_violated :
    SetTxTask_assert_holds cfg64 stC5 ∧
    (MsgAlloc_SetTxTask_prePull cfg64 (fun _ => 0) 12 stC5).2.tx_tasks.length =
      cfg64.maxMsgNb ∧
    ¬ PullMsgFromTxTask_assert_holds cfg64
        (MsgAlloc_SetTxTask_prePull cfg64 (fun _ => 0) 12 stC5).2 ∧
    (MsgAlloc_SetTxTask cfg64 (fun _ => 0) 12 stC5).tx_tasks =
      [(20, 5), (30, 5), (100, 12)] ∧
    (MsgAlloc_SetTxTask cfg64 (fun _ => 0) 12 stC5).msg_drop_number = 1 := by
  refine ⟨⟨by decide, by decide, by decide⟩, by decide, fun h => ?_, by decide, by decide⟩
  exact absurd h.2 (by decide)

/-! ## C6: cursor invariant -/

/-- Well-formedness of the build configuration: the buffer holds at
least two maximal frames (the stock config.h chooses MSG_BUFFER_SIZE as
a multiple of the maximal message size). -/
def AllocCfg.WF (cfg : AllocCfg) : Prop :=
  2 * (cfg.headerSize + cfg.maxData + 2) ≤ cfg.bufferSize

/-- Inductive invariant on the reception cursor: ordered, inside the
buffer, with the estimated frame between the minimal (header + CRC) and
maximal (header + MAX_DATA_MSG_SIZE + CRC) extents. -/
def CursorInv (cfg : AllocCfg) (s : AllocState) : Prop :=
  cfg.base ≤ s.current_msg ∧
  s.current_msg ≤ s.data_ptr ∧
  s.data_ptr ≤ s.data_end_estimation ∧
  s.data_end_estimation ≤ cfg.base + cfg.bufferSize ∧
  s.current_msg + cfg.headerSize + 2 ≤ s.data_end_estimation ∧
  s.data_end_estimation ≤ s.current_msg + cfg.headerSize + cfg.maxData + 2

theorem cursorInv_congr (cfg : AllocCfg) {s s2 : AllocState}
    (h1 : s2.current_msg = s.current_msg) (h2 : s2.data_ptr = s.data_ptr)
    (h3 : s2.data_end_estimation = s.data_end_estimation)
    (hinv : CursorInv cfg s) : CursorInv cfg s2 := by
  unfold CursorInv at *
  rw [h1, h2, h3]
  exact hinv

theorem cursorInv_init (cfg : AllocCfg) (s : AllocState) (hwf : AllocCfg.WF cfg) :
    CursorInv cfg (MsgAlloc_Init cfg s) := by
  unfold AllocCfg.WF at hwf
  unfold MsgAlloc_Init CursorInv
  simp
  omega

theorem loop_cursor (cfg : AllocCfg) (s : AllocState) :
    (MsgAlloc_loop cfg s).current_msg = s.current_msg ∧
    (MsgAlloc_loop cfg s).data_ptr = s.data_ptr ∧
    (MsgAlloc_loop cfg s).data_end_estimation = s.data_end_estimation := by
  unfold MsgAlloc_loop
  by_cases hpc : s.msg_stack_pct < s.msg_tasks.length * 100 / cfg.maxMsgNb <;>
    simp only [hpc, if_true, if_false] <;>
    rcases hcp : s.copy_task_pointer with _ | p <;>
    simp [hcp]

theorem luosTaskAlloc_cursor (cfg : AllocCfg) (c m : Nat) (s : AllocState) :
    (MsgAlloc_LuosTaskAlloc cfg c m s).current_msg = s.current_msg ∧
    (MsgAlloc_LuosTaskAlloc cfg c m s).data_ptr = s.data_ptr ∧
    (MsgAlloc_LuosTaskAlloc cfg c m s).data_end_estimation = s.data_end_estimation := by
  unfold MsgAlloc_LuosTaskAlloc
  split <;> simp <;> split <;> simp

theorem pullMsgToInterpret_cursor (s : AllocState) :
    (MsgAlloc_PullMsgToInterpret s).2.2.current_msg = s.current_msg ∧
    (MsgAlloc_PullMsgToInterpret s).2.2.data_ptr = s.data_ptr ∧
    (MsgAlloc_PullMsgToInterpret s).2.2.data_end_estimation = s.data_end_estimation := by
  unfold MsgAlloc_PullMsgToInterpret
  rcases s.msg_tasks <;> simp

theorem pullMsg_cursor (c : Nat) (s : AllocState) :
    (MsgAlloc_PullMsg c s).2.2.current_msg = s.current_msg ∧
    (MsgAlloc_PullMsg c s).2.2.data_ptr = s.data_ptr ∧
    (MsgAlloc_PullMsg c s).2.2.data_end_estimation = s.data_end_estimation := by
  unfold MsgAlloc_PullMsg
  rcases h : pullMsgAux c s.luos_tasks with _ | ⟨m, l⟩ <;> simp [h]

theorem pullMsgFromLuosTask_cursor (i : Nat) (s : AllocState) :
    (MsgAlloc_PullMsgFromLuosTask i s).2.2.current_msg = s.current_msg ∧
    (MsgAlloc_PullMsgFromLuosTask i s).2.2.data_ptr = s.data_ptr ∧
    (MsgAlloc_PullMsgFromLuosTask i s).2.2.data_end_estimation = s.data_end_estimation := by
  unfold MsgAlloc_PullMsgFromLuosTask
  rcases h : s.luos_tasks.get? i with _ | e <;> simp [h]

theorem clearMsgFromLuosTasks_cursor (m : Nat) (s : AllocState) :
    (MsgAlloc_ClearMsgFromLuosTasks m s).current_msg = s.current_msg ∧
    (MsgAlloc_ClearMsgFromLuosTasks m s).data_ptr = s.data_ptr ∧
    (MsgAlloc_ClearMsgFromLuosTasks m s).data_end_estimation = s.data_end_estimation := by
  unfold MsgAlloc_ClearMsgFromLuosTasks
  simp

theorem usedMsgEnd_cursor (s : AllocState) :
    (MsgAlloc_UsedMsgEnd s).current_msg = s.current_msg ∧
    (MsgAlloc_UsedMsgEnd s).data_ptr = s.data_ptr ∧
    (MsgAlloc_UsedMsgEnd s).data_end_estimation = s.data_end_estimation := by
  unfold MsgAlloc_UsedMsgEnd
  simp

theorem pullMsgFromTxTask_cursor (s : AllocState) :
    (MsgAlloc_PullMsgFromTxTask s).current_msg = s.current_msg ∧
    (MsgAlloc_PullMsgFromTxTask s).data_ptr = s.data_ptr ∧
    (MsgAlloc_PullMsgFromTxTask s).data_end_estimation = s.data_end_estimation := by
  unfold MsgAlloc_PullMsgFromTxTask
  simp

theorem getTxTask_cursor (s : AllocState) :
    (MsgAlloc_GetTxTask s).2.2.current_msg = s.current_msg ∧
    (MsgAlloc_GetTxTask s).2.2.data_ptr = s.data_ptr ∧
    (MsgAlloc_GetTxTask s).2.2.data_end_estimation = s.data_end_estimation := by
  unfold MsgAlloc_GetTxTask
  rcases s.tx_tasks <;> simp

theorem cursorInv_invalidMsg (cfg : AllocCfg) (s : AllocState)
    (hinv : CursorInv cfg s) : CursorInv cfg (MsgAlloc_InvalidMsg cfg s) := by
  obtain ⟨i1, i2, i3, i4, i5, i6⟩ := hinv
  unfold CursorInv
  simp only [MsgAlloc_InvalidMsg]
  split <;> simp <;> omega

theorem cursorInv_setData (cfg : AllocCfg) (s : AllocState) (d : Nat)
    (hres : s.data_ptr < s.data_end_estimation) (hinv : CursorInv cfg s) :
    CursorInv cfg (MsgAlloc_SetData d s) := by
  obtain ⟨i1, i2, i3, i4, i5, i6⟩ := hinv
  unfold MsgAlloc_SetData CursorInv
  simp
  omega

theorem cursorInv_validHeader (cfg : AllocCfg) (s : AllocState) (v : Bool) (ds : Nat)
    (hwf : AllocCfg.WF cfg) (hds : ds ≤ cfg.maxData)
    (hdp : s.data_ptr = s.current_msg + cfg.headerSize)
    (hinv : CursorInv cfg s) :
    CursorInv cfg (MsgAlloc_ValidHeader cfg v ds s) := by
  obtain ⟨i1, i2, i3, i4, i5, i6⟩ := hinv
  unfold AllocCfg.WF at hwf
  cases v
  · unfold MsgAlloc_ValidHeader CursorInv
    simp
    omega
  · unfold MsgAlloc_ValidHeader
    by_cases hA : MsgAlloc_DoWeHaveSpace cfg (s.current_msg + cfg.headerSize + ds + 2) = .FAILED
    · have hA2 := (doWeHaveSpace_failed_iff cfg _).mp hA
      rcases hu : s.used_msg with _ | u
      · unfold CursorInv
        simp [hA, hu]
        omega
      · unfold CursorInv
        simp only [hA, reduceIte, hu]
        split <;> simp <;> omega
    · have hA2 : ¬ (cfg.base + cfg.bufferSize - 1 < s.current_msg + cfg.headerSize + ds + 2) := by
        rw [doWeHaveSpace_failed_iff] at hA
        exact hA
      rcases hu : s.used_msg with _ | u
      · unfold CursorInv
        simp [hA, hu]
        omega
      · unfold CursorInv
        simp only [hA, reduceIte, hu]
        split <;> simp <;> omega

theorem endMsg_data_ptr (cfg : AllocCfg) (s : AllocState) :
    (MsgAlloc_EndMsg cfg s).data_ptr =
      (if MsgAlloc_DoWeHaveSpace cfg (s.data_ptr - 2 + cfg.headerSize + 2) = .FAILED
       then cfg.base
       else if s.buf (s.data_ptr - 2) % 2 ≠ 1 then s.data_ptr - 2 + 1
       else s.data_ptr - 2) := by
  unfold MsgAlloc_EndMsg
  simp

theorem endMsg_current (cfg : AllocCfg) (s : AllocState) :
    (MsgAlloc_EndMsg cfg s).current_msg = (MsgAlloc_EndMsg cfg s).data_ptr := by
  unfold MsgAlloc_EndMsg
  simp

theorem endMsg_de (cfg : AllocCfg) (s : AllocState) :
    (MsgAlloc_EndMsg cfg s).data_end_estimation =
      (MsgAlloc_EndMsg cfg s).data_ptr + cfg.headerSize + 2 := by
  unfold MsgAlloc_EndMsg
  simp

theorem cursorInv_endMsg (cfg : AllocCfg) (s : AllocState)
    (hwf : AllocCfg.WF cfg) (hb : cfg.base + 2 ≤ s.data_ptr) :
    CursorInv cfg (MsgAlloc_EndMsg cfg s) := by
  unfold AllocCfg.WF at hwf
  have hdp := endMsg_data_ptr cfg s
  have hcm := endMsg_current cfg s
  have hde := endMsg_de cfg s
  unfold CursorInv
  rw [hcm, hde, hdp]
  by_cases hA : MsgAlloc_DoWeHaveSpace cfg (s.data_ptr - 2 + cfg.headerSize + 2) = .FAILED
  · have hA2 := (doWeHaveSpace_failed_iff cfg _).mp hA
    simp [hA]
    omega
  · have hA2 : ¬ (cfg.base + cfg.bufferSize - 1 < s.data_ptr - 2 + cfg.headerSize + 2) := by
      rw [doWeHaveSpace_failed_iff] at hA
      exact hA
    simp [hA]
    split <;> omega

theorem cursorInv_endMsg_buf (cfg : AllocCfg) (t : AllocState) (b : Nat → Nat)
    (hwf : AllocCfg.WF cfg) (hb : cfg.base + 2 ≤ t.data_ptr) :
    CursorInv cfg { MsgAlloc_EndMsg cfg t with buf := b } :=
  cursorInv_congr cfg (by simp) (by simp) (by simp) (cursorInv_endMsg cfg t hwf hb)

theorem cursorInv_setMessage (cfg : AllocCfg) (s : AllocState) (sz : Nat)
    (content : Nat → Nat) (hwf : AllocCfg.WF cfg) (hinv : CursorInv cfg s) :
    CursorInv cfg (MsgAlloc_SetMessage cfg sz content s) := by
  obtain ⟨i1, i2, i3, i4, i5, i6⟩ := hinv
  simp only [MsgAlloc_SetMessage]
  apply cursorInv_endMsg_buf cfg _ _ hwf
  simp
  split <;> split <;> (try simp) <;> omega

theorem setTxTask_cursor (cfg : AllocCfg) (data : Nat → Nat) (size : Nat)
    (s : AllocState) :
    (MsgAlloc_SetTxTask cfg data size s).current_msg =
      (MsgAlloc_SetTxTask_prePull cfg data size s).2.current_msg ∧
    (MsgAlloc_SetTxTask cfg data size s).data_ptr =
      (MsgAlloc_SetTxTask_prePull cfg data size s).2.data_ptr ∧
    (MsgAlloc_SetTxTask cfg data size s).data_end_estimation =
      (MsgAlloc_SetTxTask_prePull cfg data size s).2.data_end_estimation := by
  simp only [MsgAlloc_SetTxTask]
  split <;> simp

theorem cursorInv_setTxTask_prePull (cfg : AllocCfg) (data : Nat → Nat) (size : Nat)
    (s : AllocState) (hwf : AllocCfg.WF cfg)
    (hsz : size ≤ cfg.headerSize + cfg.maxData + 2) (hinv : CursorInv cfg s) :
    CursorInv cfg (MsgAlloc_SetTxTask_prePull cfg data size s).2 := by
  obtain ⟨i1, i2, i3, i4, i5, i6⟩ := hinv
  unfold AllocCfg.WF at hwf
  unfold CursorInv
  simp only [MsgAlloc_SetTxTask_prePull]
  by_cases hA : MsgAlloc_DoWeHaveSpace cfg (s.current_msg + size) = .FAILED
  · have hA2 := (doWeHaveSpace_failed_iff cfg _).mp hA
    simp [hA]
    omega
  · have hA2 : ¬ (cfg.base + cfg.bufferSize - 1 < s.current_msg + size) := by
      rw [doWeHaveSpace_failed_iff] at hA
      exact hA
    by_cases hB : MsgAlloc_DoWeHaveSpace cfg
        (s.current_msg + size + (s.data_end_estimation - s.current_msg)) = .FAILED
    · have hB2 := (doWeHaveSpace_failed_iff cfg _).mp hB
      simp [hA, hB]
      omega
    · have hB2 : ¬ (cfg.base + cfg.bufferSize - 1 <
          s.current_msg + size + (s.data_end_estimation - s.current_msg)) := by
        rw [doWeHaveSpace_failed_iff] at hB
        exact hB
      simp [hA, hB]
      omega

theorem cursorInv_setTxTask (cfg : AllocCfg) (data : Nat → Nat) (size : Nat)
    (s : AllocState) (hwf : AllocCfg.WF cfg)
    (hsz : size ≤ cfg.headerSize + cfg.maxData + 2) (hinv : CursorInv cfg s) :
    CursorInv cfg (MsgAlloc_SetTxTask cfg data size s) := by
  have h := setTxTask_cursor cfg data size s
  exact cursorInv_congr cfg h.1 h.2.1 h.2.2
    (cursorInv_setTxTask_prePull cfg data size s hwf hsz hinv)

/-- One observable allocator operation taken at its boundary.  The
guards are the collaborator contract.  Modelled from the spec: the
framing collaborator (reception/robus) is not among the sources; per
the specification it writes only bytes for which space was reserved
(SetData while data_ptr < data_end_estimation), calls
MsgAlloc_ValidHeader right after the sizeof(header_t) header bytes of a
frame were written and with a declared payload of at most
MAX_DATA_MSG_SIZE, calls MsgAlloc_EndMsg when the complete frame
including the 2 CRC bytes has been received, and stages transmit
frames of at most one maximal frame. -/
inductive AllocStep (cfg : AllocCfg) : AllocState → AllocState → Prop
  | init (s : AllocState) : AllocStep cfg s (MsgAlloc_Init cfg s)
  | loop (s : AllocState) : AllocStep cfg s (MsgAlloc_loop cfg s)
  | invalidMsg (s : AllocState) : AllocStep cfg s (MsgAlloc_InvalidMsg cfg s)
  | validHeader (s : AllocState) (v : Bool) (ds : Nat) (hds : ds ≤ cfg.maxData)
      (hdp : s.data_ptr = s.current_msg + cfg.headerSize) :
      AllocStep cfg s (MsgAlloc_ValidHeader cfg v ds s)
  | endMsg (s : AllocState) (hdp : s.data_ptr = s.data_end_estimation) :
      AllocStep cfg s (MsgAlloc_EndMsg cfg s)
  | setData (s : AllocState) (d : Nat) (hres : s.data_ptr < s.data_end_estimation) :
      AllocStep cfg s (MsgAlloc_SetData d s)
  | setMessage (s : AllocState) (sz : Nat) (content : Nat → Nat) :
      AllocStep cfg s (MsgAlloc_SetMessage cfg sz content s)
  | setTxTask (s : AllocState) (data : Nat → Nat) (size : Nat)
      (hsz : size ≤ cfg.headerSize + cfg.maxData + 2) :
      AllocStep cfg s (MsgAlloc_SetTxTask cfg data size s)
  | luosTaskAlloc (s : AllocState) (c m : Nat) :
      AllocStep cfg s (MsgAlloc_LuosTaskAlloc cfg c m s)
  | pullMsgToInterpret (s : AllocState) :
      AllocStep cfg s (MsgAlloc_PullMsgToInterpret s).2.2
  | pullMsg (s : AllocState) (c : Nat) :
      AllocStep cfg s (MsgAlloc_PullMsg c s).2.2
  | pullMsgFromLuosTask (s : AllocState) (i : Nat) :
      AllocStep cfg s (MsgAlloc_PullMsgFromLuosTask i s).2.2
  | clearMsgFromLuosTasks (s : AllocState) (m : Nat) :
      AllocStep cfg s (MsgAlloc_ClearMsgFromLuosTasks m s)
  | usedMsgEnd (s : AllocState) : AllocStep cfg s (MsgAlloc_UsedMsgEnd s)
  | pullMsgFromTxTask (s : AllocState) :
      AllocStep cfg s (MsgAlloc_PullMsgFromTxTask s)
  | getTxTask (s : AllocState) : AllocStep cfg s (MsgAlloc_GetTxTask s).2.2

/-- States reachable from MsgAlloc_Init by allocator operations. -/
inductive AllocReachable (cfg : AllocCfg) : AllocState → Prop
  | start (s : AllocState) : AllocReachable cfg (MsgAlloc_Init cfg s)
  | step {s t : AllocState} : AllocReachable cfg s → AllocStep cfg s t →
      AllocReachable cfg t

theorem cursorInv_step (cfg : AllocCfg) {s t : AllocState} (hwf : AllocCfg.WF cfg)
    (hstep : AllocStep cfg s t) (hinv : CursorInv cfg s) : CursorInv cfg t := by
  cases hstep with
  | init => exact cursorInv_init cfg s hwf
  | loop =>
    have h := loop_cursor cfg s
    exact cursorInv_congr cfg h.1 h.2.1 h.2.2 hinv
  | invalidMsg => exact cursorInv_invalidMsg cfg s hinv
  | validHeader v ds hds hdp => exact cursorInv_validHeader cfg s v ds hwf hds hdp hinv
  | endMsg hdp =>
    apply cursorInv_endMsg cfg s hwf
    obtain ⟨i1, i2, i3, i4, i5, i6⟩ := hinv
    omega
  | setData d hres => exact cursorInv_setData cfg s d hres hinv
  | setMessage sz content => exact cursorInv_setMessage cfg s sz content hwf hinv
  | setTxTask data size hsz => exact cursorInv_setTxTask cfg data size s hwf hsz hinv
  | luosTaskAlloc c m =>
    have h := luosTaskAlloc_cursor cfg c m s
    exact cursorInv_congr cfg h.1 h.2.1 h.2.2 hinv
  | pullMsgToInterpret =>
    have h := pullMsgToInterpret_cursor s
    exact cursorInv_congr cfg h.1 h.2.1 h.2.2 hinv
  | pullMsg c =>
    have h := pullMsg_cursor c s
    exact cursorInv_congr cfg h.1 h.2.1 h.2.2 hinv
  | pullMsgFromLuosTask i =>
    have h := pullMsgFromLuosTask_cursor i s
    exact cursorInv_congr cfg h.1 h.2.1 h.2.2 hinv
  | clearMsgFromLuosTasks m =>
    have h := clearMsgFromLuosTasks_cursor m s
    exact cursorInv_congr cfg h.1 h.2.1 h.2.2 hinv
  | usedMsgEnd =>
    have h := usedMsgEnd_cursor s
    exact cursorInv_congr cfg h.1 h.2.1 h.2.2 hinv
  | pullMsgFromTxTask =>
    have h := pullMsgFromTxTask_cursor s
    exact cursorInv_congr cfg h.1 h.2.1 h.2.2 hinv
  | getTxTask =>
    have h := getTxTask_cursor s
    exact cursorInv_congr cfg h.1 h.2.1 h.2.2 hinv

theorem cursorInv_reachable (cfg : AllocCfg) (hwf : AllocCfg.WF cfg)
    {s : AllocState} (h : AllocReachable cfg s) : CursorInv cfg s := by
  induction h with
  | start s => exact cursorInv_init cfg s hwf
  | step hr hstep ih => exact cursorInv_step cfg hwf hstep ih

/-- C6: in every state reachable from MsgAlloc_Init by a sequence of
allocator operations taken at their boundaries (with declared payload
sizes as the framing collaborator provides them, as expressed by the
AllocStep guards), the reception cursor satisfies current_msg ≤
data_ptr ≤ data_end_estimation ≤ buffer + MSG_BUFFER_SIZE. -/
theorem C6_cursor_invariant (cfg : AllocCfg) (hwf : AllocCfg.WF cfg)
    (s : AllocState) (h : AllocReachable cfg s) :
    s.current_msg ≤ s.data_ptr ∧
    s.data_ptr ≤ s.data_end_estimation ∧
    s.data_end_estimation ≤ cfg.base + cfg.bufferSize := by
  have hi := cursorInv_reachable cfg hwf h
  exact ⟨hi.2.1, hi.2.2.1, hi.2.2.2.1⟩

theorem C6_witness :
    AllocCfg.WF cfg64 ∧
    ((MsgAlloc_Init cfg64 stC1).current_msg ≤ (MsgAlloc_Init cfg64 stC1).data_ptr ∧
     (MsgAlloc_Init cfg64 stC1).data_ptr ≤ (MsgAlloc_Init cfg64 stC1).data_end_estimation ∧
     (MsgAlloc_Init cfg64 stC1).data_end_estimation ≤ cfg64.base + cfg64.bufferSize) :=
  ⟨by unfold AllocCfg.WF; decide,
   C6_cursor_invariant cfg64 (by unfold AllocCfg.WF; decide) _ (AllocReachable.start stC1)⟩

/-! ## C8: drop counter monotone and saturating -/

/-- Evolution of the drop counter over one operation: it never
decreases, and it grows only while at most 255. -/
def DropEvolves (d1 d2 : Nat) : Prop := d1 ≤ d2 ∧ (d2 ≤ 255 ∨ d2 = d1)

theorem dropEvolves_refl (d : Nat) : DropEvolves d d := by
  unfold DropEvolves
  omega

theorem dropEvolves_trans {d1 d2 d3 : Nat} (h1 : DropEvolves d1 d2)
    (h2 : DropEvolves d2 d3) : DropEvolves d1 d3 := by
  unfold DropEvolves at *
  omega

theorem dropEvolves_dropInc (d : Nat) : DropEvolves d (dropInc d) := by
  have := dropInc_spec d
  unfold DropEvolves
  omega

theorem dropEvolves_iterate (k d : Nat) : DropEvolves d (dropInc^[k] d) := by
  induction k generalizing d with
  | zero => exact dropEvolves_refl d
  | succ n ih =>
    rw [Function.iterate_succ_apply]
    exact dropEvolves_trans (dropEvolves_dropInc d) (ih (dropInc d))

theorem clearMsgSpace_drop (cfg : AllocCfg) (f t : Nat) (s : AllocState) :
    DropEvolves s.msg_drop_number (MsgAlloc_ClearMsgSpace cfg f t s).2.msg_drop_number := by
  by_cases ht : cfg.base + cfg.bufferSize - 1 < t
  · unfold MsgAlloc_ClearMsgSpace
    simp only [ht, if_true]
    exact dropEvolves_refl _
  · rw [clearMsgSpace_succeed_state cfg f t s ht]
    exact dropEvolves_trans
      (dropEvolves_trans (dropEvolves_iterate _ _) (dropEvolves_iterate _ _))
      (dropEvolves_iterate _ _)

theorem msgTasksPush_drop (cfg : AllocCfg) (m : Nat) (tasks : List Nat) (d : Nat) :
    DropEvolves d (msgTasksPush cfg m tasks d).2 := by
  unfold msgTasksPush
  split
  · exact dropEvolves_dropInc d
  · exact dropEvolves_refl d

theorem clearMsgSpace_drop_from (cfg : AllocCfg) (f t d : Nat) (st : AllocState)
    (h : st.msg_drop_number = d) :
    DropEvolves d (MsgAlloc_ClearMsgSpace cfg f t st).2.msg_drop_number := by
  rw [← h]
  exact clearMsgSpace_drop cfg f t st

theorem endMsg_drop (cfg : AllocCfg) (s : AllocState) :
    DropEvolves s.msg_drop_number (MsgAlloc_EndMsg cfg s).msg_drop_number := by
  have e1 := clearMsgSpace_drop cfg s.current_msg s.data_ptr s
  have e2 := msgTasksPush_drop cfg
    (MsgAlloc_ClearMsgSpace cfg s.current_msg s.data_ptr s).2.current_msg
    (MsgAlloc_ClearMsgSpace cfg s.current_msg s.data_ptr s).2.msg_tasks
    (MsgAlloc_ClearMsgSpace cfg s.current_msg s.data_ptr s).2.msg_drop_number
  simp only [MsgAlloc_EndMsg]
  exact dropEvolves_trans (dropEvolves_trans e1 e2)
    (clearMsgSpace_drop_from cfg _ _ _ _ rfl)

theorem endMsg_drop_from (cfg : AllocCfg) (d : Nat) (st : AllocState)
    (h : st.msg_drop_number = d) :
    DropEvolves d (MsgAlloc_EndMsg cfg st).msg_drop_number := by
  rw [← h]
  exact endMsg_drop cfg st

theorem validHeader_drop (cfg : AllocCfg) (v : Bool) (ds : Nat) (s : AllocState) :
    DropEvolves s.msg_drop_number (MsgAlloc_ValidHeader cfg v ds s).msg_drop_number := by
  cases v
  · exact dropEvolves_refl _
  · unfold MsgAlloc_ValidHeader
    rcases hu : s.used_msg with _ | u
    · by_cases hA : MsgAlloc_DoWeHaveSpace cfg
          (s.current_msg + cfg.headerSize + ds + 2) = .FAILED <;>
        simp only [hA, hu, reduceIte, if_true, if_false] <;>
        exact dropEvolves_refl _
    · by_cases hA : MsgAlloc_DoWeHaveSpace cfg
          (s.current_msg + cfg.headerSize + ds + 2) = .FAILED <;>
        simp only [hA, hu, reduceIte, if_true, if_false] <;>
        (split
         · exact dropEvolves_dropInc _
         · exact dropEvolves_refl _)

theorem invalidMsg_drop (cfg : AllocCfg) (s : AllocState) :
    DropEvolves s.msg_drop_number (MsgAlloc_InvalidMsg cfg s).msg_drop_number := by
  simp only [MsgAlloc_InvalidMsg]
  split <;> exact clearMsgSpace_drop cfg _ _ _

theorem setMessage_drop (cfg : AllocCfg) (sz : Nat) (content : Nat → Nat)
    (s : AllocState) :
    DropEvolves s.msg_drop_number (MsgAlloc_SetMessage cfg sz content s).msg_drop_number := by
  simp only [MsgAlloc_SetMessage]
  split <;> split <;>
    (refine dropEvolves_trans ?_ (endMsg_drop_from cfg _ _ rfl)
     exact clearMsgSpace_drop_from cfg _ _ _ _ rfl)

theorem setTxTask_prePull_drop (cfg : AllocCfg) (data : Nat → Nat) (size : Nat)
    (s : AllocState) :
    DropEvolves s.msg_drop_number
      (MsgAlloc_SetTxTask_prePull cfg data size s).2.msg_drop_number := by
  simp only [MsgAlloc_SetTxTask_prePull]
  split
  · exact clearMsgSpace_drop_from cfg _ _ _ _ rfl
  · split
    · refine dropEvolves_trans
        (clearMsgSpace_drop cfg s.current_msg (s.current_msg + size) s) ?_
      exact clearMsgSpace_drop_from cfg _ _ _ _ rfl
    · exact clearMsgSpace_drop_from cfg _ _ _ _ rfl

theorem setTxTask_drop (cfg : AllocCfg) (data : Nat → Nat) (size : Nat)
    (s : AllocState) :
    DropEvolves s.msg_drop_number (MsgAlloc_SetTxTask cfg data size s).msg_drop_number := by
  simp only [MsgAlloc_SetTxTask]
  split
  · refine dropEvolves_trans (setTxTask_prePull_drop cfg data size s) ?_
    exact dropEvolves_dropInc _
  · exact setTxTask_prePull_drop cfg data size s

theorem loop_drop (cfg : AllocCfg) (s : AllocState) :
    (MsgAlloc_loop cfg s).msg_drop_number = s.msg_drop_number := by
  unfold MsgAlloc_loop
  by_cases hpc : s.msg_stack_pct < s.msg_tasks.length * 100 / cfg.maxMsgNb <;>
    simp only [hpc, if_true, if_false] <;>
    rcases hcp : s.copy_task_pointer with _ | p <;>
    simp [hcp]

theorem luosTaskAlloc_drop (cfg : AllocCfg) (c m : Nat) (s : AllocState) :
    (MsgAlloc_LuosTaskAlloc cfg c m s).msg_drop_number = s.msg_drop_number := by
  unfold MsgAlloc_LuosTaskAlloc
  split <;> simp <;> split <;> simp

theorem pullMsgToInterpret_drop (s : AllocState) :
    (MsgAlloc_PullMsgToInterpret s).2.2.msg_drop_number = s.msg_drop_number := by
  unfold MsgAlloc_PullMsgToInterpret
  rcases s.msg_tasks <;> simp

theorem pullMsg_drop (c : Nat) (s : AllocState) :
    (MsgAlloc_PullMsg c s).2.2.msg_drop_number = s.msg_drop_number := by
  unfold MsgAlloc_PullMsg
  rcases h : pullMsgAux c s.luos_tasks with _ | ⟨m, l⟩ <;> simp [h]

theorem pullMsgFromLuosTask_drop (i : Nat) (s : AllocState) :
    (MsgAlloc_PullMsgFromLuosTask i s).2.2.msg_drop_number = s.msg_drop_number := by
  unfold MsgAlloc_PullMsgFromLuosTask
  rcases h : s.luos_tasks.get? i with _ | e <;> simp [h]

theorem getTxTask_drop (s : AllocState) :
    (MsgAlloc_GetTxTask s).2.2.msg_drop_number = s.msg_drop_number := by
  unfold MsgAlloc_GetTxTask
  rcases s.tx_tasks <;> simp

/-- One allocator operation with arbitrary arguments and no contract
guard: any call sequence whatsoever. -/
inductive AllocAnyStep (cfg : AllocCfg) : AllocState → AllocState → Prop
  | init (s : AllocState) : AllocAnyStep cfg s (MsgAlloc_Init cfg s)
  | loop (s : AllocState) : AllocAnyStep cfg s (MsgAlloc_loop cfg s)
  | invalidMsg (s : AllocState) : AllocAnyStep cfg s (MsgAlloc_InvalidMsg cfg s)
  | validHeader (s : AllocState) (v : Bool) (ds : Nat) :
      AllocAnyStep cfg s (MsgAlloc_ValidHeader cfg v ds s)
  | endMsg (s : AllocState) : AllocAnyStep cfg s (MsgAlloc_EndMsg cfg s)
  | setData (s : AllocState) (d : Nat) : AllocAnyStep cfg s (MsgAlloc_SetData d s)
  | setMessage (s : AllocState) (sz : Nat) (content : Nat → Nat) :
      AllocAnyStep cfg s (MsgAlloc_SetMessage cfg sz content s)
  | setTxTask (s : AllocState) (data : Nat → Nat) (size : Nat) :
      AllocAnyStep cfg s (MsgAlloc_SetTxTask cfg data size s)
  | luosTaskAlloc (s : AllocState) (c m : Nat) :
      AllocAnyStep cfg s (MsgAlloc_LuosTaskAlloc cfg c m s)
  | pullMsgToInterpret (s : AllocState) :
      AllocAnyStep cfg s (MsgAlloc_PullMsgToInterpret s).2.2
  | pullMsg (s : AllocState) (c : Nat) :
      AllocAnyStep cfg s (MsgAlloc_PullMsg c s).2.2
  | pullMsgFromLuosTask (s : AllocState) (i : Nat) :
      AllocAnyStep cfg s (MsgAlloc_PullMsgFromLuosTask i s).2.2
  | clearMsgFromLuosTasks (s : AllocState) (m : Nat) :
      AllocAnyStep cfg s (MsgAlloc_ClearMsgFromLuosTasks m s)
  | usedMsgEnd (s : AllocState) : AllocAnyStep cfg s (MsgAlloc_UsedMsgEnd s)
  | pullMsgFromTxTask (s : AllocState) :
      AllocAnyStep cfg s (MsgAlloc_PullMsgFromTxTask s)
  | getTxTask (s : AllocState) : AllocAnyStep cfg s (MsgAlloc_GetTxTask s).2.2

theorem anyStep_drop (cfg : AllocCfg) {s t : AllocState}
    (hstep : AllocAnyStep cfg s t) :
    DropEvolves s.msg_drop_number t.msg_drop_number := by
  cases hstep with
  | init => exact dropEvolves_refl _
  | loop => rw [loop_drop]; exact dropEvolves_refl _
  | invalidMsg => exact invalidMsg_drop cfg s
  | validHeader v ds => exact validHeader_drop cfg v ds s
  | endMsg => exact endMsg_drop cfg s
  | setData d => exact dropEvolves_refl _
  | setMessage sz content => exact setMessage_drop cfg sz content s
  | setTxTask data size => exact setTxTask_drop cfg data size s
  | luosTaskAlloc c m => rw [luosTaskAlloc_drop]; exact dropEvolves_refl _
  | pullMsgToInterpret => rw [pullMsgToInterpret_drop]; exact dropEvolves_refl _
  | pullMsg c => rw [pullMsg_drop]; exact dropEvolves_refl _
  | pullMsgFromLuosTask i => rw [pullMsgFromLuosTask_drop]; exact dropEvolves_refl _
  | clearMsgFromLuosTasks m => exact dropEvolves_refl _
  | usedMsgEnd => exact dropEvolves_refl _
  | pullMsgFromTxTask => exact dropEvolves_refl _
  | getTxTask => rw [getTxTask_drop]; exact dropEvolves_refl _

/-- C8: across every sequence of allocator operations the counter
msg_drop_number is monotone non-decreasing, and it never exceeds 255
when it starts at most 255 (every drop site increments it only when
strictly below 255, through the saturating dropInc). -/
theorem C8_drop_monotone (cfg : AllocCfg) (s t : AllocState)
    (h : Relation.ReflTransGen (AllocAnyStep cfg) s t) :
    s.msg_drop_number ≤ t.msg_drop_number ∧
    (s.msg_drop_number ≤ 255 → t.msg_drop_number ≤ 255) := by
  induction h with
  | refl => exact ⟨Nat.le_refl _, fun h => h⟩
  | tail hsteps hstep ih =>
    have hd := anyStep_drop cfg hstep
    unfold DropEvolves at hd
    omega

theorem C8_witness :
    state0.msg_drop_number ≤ (MsgAlloc_EndMsg cfg64 state0).msg_drop_number ∧
    (state0.msg_drop_number ≤ 255 →
      (MsgAlloc_EndMsg cfg64 state0).msg_drop_number ≤ 255) :=
  C8_drop_monotone cfg64 state0 (MsgAlloc_EndMsg cfg64 state0)
    (Relation.ReflTransGen.single (AllocAnyStep.endMsg state0))
